import Mathlib

/-!
Verification of the multi-locator fallback utility, the driver factory and the
reporting facade of the automation-exercise framework.

The definitions below are a shallow embedding of the Python sources:

* `src/core/locator_strategy.py` — `LocatorUtility.find_element` / `is_visible`,
  embedded as `find_element` / `is_visible` over an abstract engine
  (`LocatorQuery → EngineOutcome` models building a Playwright locator and
  calling `wait_for(state='visible')`, which either succeeds, times out, or
  raises some other error);
* `src/core/driver_factory.py` — the retry loop of `DriverFactory.get_driver`
  and the remote-settings resolution of `DriverFactory.__init__` /
  `_create_remote_driver`;
* `src/config/config_loader.py` — `ConfigLoader.get_browser_matrix` and its
  legacy fallback `_get_legacy_browser_matrix`;
* `src/reporting/allure_reporter.py` and `src/reporting/manager.py` — the four
  reporter operations and `ReportingManager.log_info`.
-/

/-- Kernel-computable model of Python's `str.lower()`, used by
`locator_strategy.py` line 64 on the locator `type`. -/
def lowerString (s : String) : String :=
  ⟨s.data.map Char.toLower⟩

/-- Kernel-computable model of Python's `str.upper()`, used by
`locator_strategy.py` lines 102 and 106 when formatting a failure entry. -/
def upperString (s : String) : String :=
  ⟨s.data.map Char.toUpper⟩

/-- Kernel-computable model of Python's `str.strip()`, used by
`locator_strategy.py` line 116 on the aggregated error message. -/
def stripString (s : String) : String :=
  ⟨(((s.data.dropWhile Char.isWhitespace).reverse).dropWhile Char.isWhitespace).reverse⟩

/-- A locator dictionary as used by `LocatorUtility.find_element`
(`locator_strategy.py` line 33): a dict with a `type` and a `value` key. -/
structure LocatorDict where
  type : String
  value : String
deriving DecidableEq, Repr

/-- An engine-native query, the result of translating a `LocatorDict` into a
Playwright call (`locator_strategy.py` lines 78-87): `page.locator(s)`,
`page.get_by_text(t)` or `page.get_by_role(r)`. -/
inductive LocatorQuery where
  | selector (s : String)
  | byText (t : String)
  | byRole (r : String)
deriving DecidableEq, Repr

/-- Outcome of an engine call `locator.wait_for(state='visible', timeout=...)`
(`locator_strategy.py` line 93): success, `PlaywrightTimeoutError`, or any
other exception with its message. -/
inductive EngineOutcome where
  | visible
  | timeout
  | failure (msg : String)
deriving DecidableEq, Repr

/-- Translation of a locator dictionary into an engine query, mirroring
`locator_strategy.py` lines 64 and 78-90: the `type` is lowercased, then
`xpath` maps to an `xpath=`-prefixed selector, `css` to the raw selector,
`id` to a `#`-prefixed selector, `text` and `role` to the dedicated queries;
any other type yields `none` (the entry is skipped). -/
def mkQuery (ld : LocatorDict) : Option LocatorQuery :=
  let t := lowerString ld.type
  if t = "xpath" then some (.selector ("xpath=" ++ ld.value))
  else if t = "css" then some (.selector ld.value)
  else if t = "id" then some (.selector ("#" ++ ld.value))
  else if t = "text" then some (.byText ld.value)
  else if t = "role" then some (.byRole ld.value)
  else none

/-- The failure entry recorded for one failed attempt
(`locator_strategy.py` lines 101-108): the uppercased type, the value and the
reason (a fixed text for a timeout, the exception message otherwise). -/
def attemptErrorMsg (ld : LocatorDict) (o : EngineOutcome) : String :=
  match o with
  | .timeout => upperString (lowerString ld.type) ++ ": " ++ ld.value ++ " - Element not visible within timeout"
  | .failure m => upperString (lowerString ld.type) ++ ": " ++ ld.value ++ " - " ++ m
  | .visible => ""

/-- Result of running the attempt loop of `find_element`
(`locator_strategy.py` lines 61-108): the first successful query if any, the
accumulated `errors` list, and the engine calls that were made, in order. -/
structure FindLoopResult where
  found : Option LocatorQuery
  errors : List String
  calls : List LocatorQuery
deriving DecidableEq, Repr

/-- The attempt loop of `LocatorUtility.find_element`
(`locator_strategy.py` lines 63-108): entries with an empty `value` are
skipped, entries with an unrecognized `type` are skipped, otherwise the engine
is called; on success the loop returns immediately, on a timeout or any other
failure the failure entry is appended to `errors` and the loop continues. -/
def findLoop (engine : LocatorQuery → EngineOutcome) : List LocatorDict → FindLoopResult
  | [] => ⟨none, [], []⟩
  | ld :: rest =>
    if ld.value = "" then findLoop engine rest
    else
      match mkQuery ld with
      | none => findLoop engine rest
      | some q =>
        match engine q with
        | .visible => ⟨some q, [], [q]⟩
        | .timeout =>
          let r := findLoop engine rest
          ⟨r.found, attemptErrorMsg ld .timeout :: r.errors, q :: r.calls⟩
        | .failure m =>
          let r := findLoop engine rest
          ⟨r.found, attemptErrorMsg ld (.failure m) :: r.errors, q :: r.calls⟩

/-- The enumeration of the recorded failure entries in the diagnostic message
(`locator_strategy.py` lines 112-113): one indented, 1-based numbered line per
entry. -/
def enumerateErrors : Nat → List String → String
  | _, [] => ""
  | i, e :: rest => "  " ++ toString i ++ ". " ++ e ++ "\n" ++ enumerateErrors (i + 1) rest

/-- The diagnostic message raised when every locator failed
(`locator_strategy.py` lines 111-116): a header counting `len(locators)`, the
numbered failure entries, stripped of surrounding whitespace. -/
def errorSummary (elementName : String) (total : Nat) (errors : List String) : String :=
  stripString (elementName ++ ": All " ++ toString total ++ " locator(s) failed:\n" ++
    enumerateErrors 1 errors)

/-- The exceptions raised by `find_element`: the `ValueError` of
`locator_strategy.py` line 59 for an empty locator list, and the `Exception`
of line 116 when all locators failed, each carrying its message. -/
inductive FindError where
  | emptyLocatorList (msg : String)
  | allLocatorsFailed (msg : String)
deriving DecidableEq, Repr

/-- Embedding of `LocatorUtility.find_element` (`locator_strategy.py` lines
31-116): raise on an empty list, otherwise run the attempt loop and either
return the first successful query or raise the aggregated diagnostic. -/
def find_element (engine : LocatorQuery → EngineOutcome) (locators : List LocatorDict)
    (elementName : String) : Except FindError LocatorQuery :=
  if locators.isEmpty then
    .error (.emptyLocatorList (elementName ++ ": No locators provided"))
  else
    match (findLoop engine locators).found with
    | some q => .ok q
    | none =>
      .error (.allLocatorsFailed
        (errorSummary elementName locators.length (findLoop engine locators).errors))

/-- The engine as seen by `LocatorUtility.is_visible`: `waitVisible` models
building a locator and `wait_for(state='visible')` as in `find_element`, and
`checkVisible` models the subsequent `locator.is_visible()` call
(`locator_strategy.py` line 208). -/
structure Engine where
  waitVisible : LocatorQuery → EngineOutcome
  checkVisible : LocatorQuery → Bool

/-- Embedding of `LocatorUtility.is_visible` (`locator_strategy.py` lines
191-210): call `find_element`, return `locator.is_visible()` on success, and
convert any exception into `false`. -/
def is_visible (e : Engine) (locators : List LocatorDict) (elementName : String) : Bool :=
  match find_element e.waitVisible locators elementName with
  | .ok q => e.checkVisible q
  | .error _ => false

instance : DecidableEq (Except FindError LocatorQuery) := fun a b =>
  match a, b with
  | .ok x, .ok y => decidable_of_iff (x = y) (by simp)
  | .error x, .error y => decidable_of_iff (x = y) (by simp)
  | .ok _, .error _ => isFalse (by simp)
  | .error _, .ok _ => isFalse (by simp)

/-- An entry is attempted (an engine call is made for it) iff its `value` is
non-empty and its `type` is recognized (`locator_strategy.py` lines 67-69 and
88-90). -/
def isAttempted (ld : LocatorDict) : Bool :=
  !(ld.value = "") && (mkQuery ld).isSome

/-- The failure entry an attempted locator contributes under a given engine. -/
def reasonOf (e : LocatorQuery → EngineOutcome) (ld : LocatorDict) : String :=
  match mkQuery ld with
  | some q => attemptErrorMsg ld (e q)
  | none => ""

lemma find_element_eq_ok (e : LocatorQuery → EngineOutcome) (locs : List LocatorDict)
    (name : String) (q : LocatorQuery) (hne : locs ≠ [])
    (h : (findLoop e locs).found = some q) :
    find_element e locs name = .ok q := by
  cases locs with
  | nil => exact absurd rfl hne
  | cons x l => simp [find_element, h]

lemma find_element_eq_error (e : LocatorQuery → EngineOutcome) (locs : List LocatorDict)
    (name : String) (hne : locs ≠ []) (h : (findLoop e locs).found = none) :
    find_element e locs name =
      .error (.allLocatorsFailed (errorSummary name locs.length (findLoop e locs).errors)) := by
  cases locs with
  | nil => exact absurd rfl hne
  | cons x l => simp [find_element, h]

/-- When no entry of the list resolves, the loop finds nothing, records one
failure entry per attempted entry in original order, and makes exactly one
engine call per attempted entry. -/
lemma findLoop_none_of_all_fail (e : LocatorQuery → EngineOutcome) :
    ∀ locs : List LocatorDict,
    (∀ ld ∈ locs, ∀ q, mkQuery ld = some q → e q ≠ .visible) →
    findLoop e locs = ⟨none, (locs.filter isAttempted).map (reasonOf e),
      (locs.filter isAttempted).filterMap mkQuery⟩ := by
  intro locs
  induction locs with
  | nil => intro _; rfl
  | cons ld rest ih =>
    intro hall
    have hrest : ∀ x ∈ rest, ∀ q, mkQuery x = some q → e q ≠ .visible :=
      fun x hx => hall x (List.mem_cons_of_mem ld hx)
    by_cases hv : ld.value = ""
    · have hatt : isAttempted ld = false := by simp [isAttempted, hv]
      simp [findLoop, hv, hatt, ih hrest]
    · cases hq : mkQuery ld with
      | none =>
        have hatt : isAttempted ld = false := by simp [isAttempted, hq]
        simp [findLoop, hv, hq, hatt, ih hrest]
      | some q =>
        have hatt : isAttempted ld = true := by simp [isAttempted, hv, hq]
        have hne := hall ld (List.mem_cons_self ld rest) q hq
        cases ho : e q with
        | visible => exact absurd ho hne
        | timeout =>
          have hr : reasonOf e ld = attemptErrorMsg ld .timeout := by
            simp [reasonOf, hq, ho]
          simp [findLoop, hv, hq, ho, hatt, ih hrest, hr]
        | failure m =>
          have hr : reasonOf e ld = attemptErrorMsg ld (.failure m) := by
            simp [reasonOf, hq, ho]
          simp [findLoop, hv, hq, ho, hatt, ih hrest, hr]

/-- Running the loop on `pre ++ rest` where every entry of `pre` is attempted
and fails: the outcome is the outcome on `rest`, with one failure entry and
one engine call per entry of `pre` prepended. -/
lemma findLoop_append_fail (e : LocatorQuery → EngineOutcome) (rest : List LocatorDict) :
    ∀ pre : List LocatorDict,
    (∀ x ∈ pre, x.value ≠ "" ∧ ∃ qx, mkQuery x = some qx ∧ e qx ≠ .visible) →
    findLoop e (pre ++ rest) = ⟨(findLoop e rest).found,
      pre.map (reasonOf e) ++ (findLoop e rest).errors,
      pre.filterMap mkQuery ++ (findLoop e rest).calls⟩ := by
  intro pre
  induction pre with
  | nil => intro _; simp
  | cons x pre ih =>
    intro hpre
    obtain ⟨hv, qx, hqx, hfail⟩ := hpre x (List.mem_cons_self x pre)
    have hpre' := fun y hy => hpre y (List.mem_cons_of_mem x hy)
    cases ho : e qx with
    | visible => exact absurd ho hfail
    | timeout =>
      have hr : reasonOf e x = attemptErrorMsg x .timeout := by simp [reasonOf, hqx, ho]
      simp [findLoop, hv, hqx, ho, ih hpre', hr]
    | failure m =>
      have hr : reasonOf e x = attemptErrorMsg x (.failure m) := by simp [reasonOf, hqx, ho]
      simp [findLoop, hv, hqx, ho, ih hpre', hr]

/-- An entry whose `type` is not recognized is transparent to the loop: the
loop on a list containing it equals the loop on the list without it. -/
lemma findLoop_skip_unknown (e : LocatorQuery → EngineOutcome) (ld : LocatorDict)
    (hq : mkQuery ld = none) :
    ∀ pre post : List LocatorDict,
    findLoop e (pre ++ ld :: post) = findLoop e (pre ++ post) := by
  intro pre post
  induction pre with
  | nil =>
    by_cases hv : ld.value = ""
    · simp [findLoop, hv]
    · simp [findLoop, hv, hq]
  | cons x pre ih =>
    by_cases hv : x.value = ""
    · simp [findLoop, hv, ih]
    · cases hqx : mkQuery x with
      | none => simp [findLoop, hv, hqx, ih]
      | some q =>
        cases ho : e q with
        | visible => simp [findLoop, hv, hqx, ho]
        | timeout => simp [findLoop, hv, hqx, ho, ih]
        | failure m => simp [findLoop, hv, hqx, ho, ih]

/-- Claim C5: calling `find_element` on an empty locator list raises the
`ValueError` of `locator_strategy.py` line 59 (the spec's
`EmptyLocatorListError`) and performs no engine call. -/
theorem find_element_empty_list_raises (e : LocatorQuery → EngineOutcome) (name : String) :
    find_element e [] name = .error (.emptyLocatorList (name ++ ": No locators provided"))
    ∧ (findLoop e []).calls = [] :=
  ⟨rfl, rfl⟩

/-- Claim C1, counterexample to the claim as stated: a single-entry sequence
whose first locator resolves has `i = 1`, `find_element` succeeds, yet the
loop records `0` failure entries, not `i = 1`. -/
theorem find_element_failure_count_counterexample :
    find_element (fun _ => .visible) [LocatorDict.mk "css" "#btn"] "Element"
      = .ok (.selector "#btn")
    ∧ (findLoop (fun _ => .visible) [LocatorDict.mk "css" "#btn"]).errors.length = 0
    ∧ (findLoop (fun _ => .visible) [LocatorDict.mk "css" "#btn"]).errors.length ≠ 1 :=
  ⟨rfl, rfl, by decide⟩

/-- Claim C1 (amended): if every entry before position `i` is attempted and
fails to resolve and the entry at position `i` resolves to a visible element,
then `find_element` returns the element found by locator `i`, records exactly
`i - 1` failure entries (not `i`), and makes engine calls only for entries
`1..i` — nothing after the first success is attempted. Here `pre` is the
prefix of the `i - 1` failing entries. -/
theorem find_element_first_success_wins (e : LocatorQuery → EngineOutcome) (name : String)
    (pre post : List LocatorDict) (ld : LocatorDict) (q : LocatorQuery)
    (hpre : ∀ x ∈ pre, x.value ≠ "" ∧ ∃ qx, mkQuery x = some qx ∧ e qx ≠ .visible)
    (hv : ld.value ≠ "") (hq : mkQuery ld = some q) (he : e q = .visible) :
    find_element e (pre ++ ld :: post) name = .ok q
    ∧ (findLoop e (pre ++ ld :: post)).errors.length = pre.length
    ∧ (findLoop e (pre ++ ld :: post)).calls = pre.filterMap mkQuery ++ [q] := by
  have hstep : findLoop e (ld :: post) = ⟨some q, [], [q]⟩ := by
    simp [findLoop, hv, hq, he]
  have hall := findLoop_append_fail e (ld :: post) pre hpre
  rw [hstep] at hall
  have hne : pre ++ ld :: post ≠ [] := by
    cases pre <;> simp
  refine ⟨find_element_eq_ok e _ name q hne (by rw [hall]), ?_, ?_⟩
  · rw [hall]; simp
  · rw [hall]

/-- Witness for C1 (amended): the second of three css locators is the first
to resolve; the element it finds is returned, one failure entry is recorded,
and the third locator is never attempted. -/
theorem find_element_first_success_wins_witness :
    find_element (fun q => if q = .selector "#a" then .timeout else .visible)
        ([LocatorDict.mk "css" "#a"] ++ LocatorDict.mk "css" "#b" :: [LocatorDict.mk "css" "#c"])
        "Element" = .ok (.selector "#b")
    ∧ (findLoop (fun q => if q = .selector "#a" then .timeout else .visible)
        ([LocatorDict.mk "css" "#a"] ++ LocatorDict.mk "css" "#b" :: [LocatorDict.mk "css" "#c"])).errors.length = 1
    ∧ (findLoop (fun q => if q = .selector "#a" then .timeout else .visible)
        ([LocatorDict.mk "css" "#a"] ++ LocatorDict.mk "css" "#b" :: [LocatorDict.mk "css" "#c"])).calls
      = [LocatorDict.mk "css" "#a"].filterMap mkQuery ++ [.selector "#b"] := by
  have h := find_element_first_success_wins
    (fun q => if q = .selector "#a" then .timeout else .visible) "Element"
    [LocatorDict.mk "css" "#a"] [LocatorDict.mk "css" "#c"]
    (LocatorDict.mk "css" "#b") (.selector "#b")
    (by
      intro x hx
      rw [List.mem_singleton] at hx
      subst hx
      exact ⟨by decide, .selector "#a", by decide, by decide⟩)
    (by decide) (by decide) (by decide)
  exact h

/-- Claim C2, counterexample to the claim as stated: a sequence whose single
entry has a non-empty value but an unrecognized type never resolves, and
`find_element` raises the aggregated error — but its message enumerates no
entry at all (the loop recorded no failure entry), although the sequence has
one non-empty-valued entry. -/
theorem find_element_diagnostic_counterexample :
    find_element (fun _ => .timeout) [LocatorDict.mk "data-testid" "x"] "Element"
      = .error (.allLocatorsFailed "Element: All 1 locator(s) failed:")
    ∧ (findLoop (fun _ => .timeout) [LocatorDict.mk "data-testid" "x"]).errors = []
    ∧ ([LocatorDict.mk "data-testid" "x"].filter (fun ld => !(ld.value = ""))).length = 1 :=
  ⟨rfl, rfl, rfl⟩

/-- Claim C2 (amended): when no entry of a non-empty sequence resolves,
`find_element` raises the aggregated error whose message enumerates, in
original order and each with its failure reason, exactly the attempted
entries — those with a non-empty value AND a recognized type; non-empty-valued
entries with an unrecognized type are missing from the diagnostic. -/
theorem find_element_all_fail_diagnostic (e : LocatorQuery → EngineOutcome) (name : String)
    (locators : List LocatorDict) (hne : locators ≠ [])
    (hall : ∀ ld ∈ locators, ∀ q, mkQuery ld = some q → e q ≠ .visible) :
    find_element e locators name = .error (.allLocatorsFailed
      (errorSummary name locators.length ((locators.filter isAttempted).map (reasonOf e))))
    ∧ (findLoop e locators).errors = (locators.filter isAttempted).map (reasonOf e) := by
  have h := findLoop_none_of_all_fail e locators hall
  have herr := find_element_eq_error e locators name hne (by rw [h])
  rw [h] at herr
  exact ⟨herr, by rw [h]⟩

/-- Witness for C2 (amended): three entries — a failing css locator, an
unrecognized `data-testid` entry, a failing css locator — produce a diagnostic
enumerating only the two css attempts. -/
theorem find_element_all_fail_diagnostic_witness :
    find_element (fun _ => .timeout)
        [LocatorDict.mk "css" "#a", LocatorDict.mk "data-testid" "x", LocatorDict.mk "css" "#b"]
        "Element"
      = .error (.allLocatorsFailed (errorSummary "Element" 3
          (([LocatorDict.mk "css" "#a", LocatorDict.mk "data-testid" "x",
             LocatorDict.mk "css" "#b"].filter isAttempted).map (reasonOf (fun _ => .timeout))))) := by
  have h := find_element_all_fail_diagnostic (fun _ => .timeout) "Element"
    [LocatorDict.mk "css" "#a", LocatorDict.mk "data-testid" "x", LocatorDict.mk "css" "#b"]
    (by decide) (fun ld _ q _ h => nomatch h)
  exact h.1

/-- Claim C9: an entry whose strategy type is not one of xpath, css, id, text
or role is skipped without an engine call and without a failure entry — the
loop behaves exactly as if the entry were absent — yet when everything fails,
the raised message's header counts the full input length, skipped entry
included. -/
theorem find_element_unknown_type_skipped (e : LocatorQuery → EngineOutcome) (name : String)
    (pre post : List LocatorDict) (ld : LocatorDict) (hq : mkQuery ld = none) :
    findLoop e (pre ++ ld :: post) = findLoop e (pre ++ post)
    ∧ ((findLoop e (pre ++ post)).found = none →
        find_element e (pre ++ ld :: post) name = .error (.allLocatorsFailed
          (errorSummary name (pre.length + post.length + 1)
            (findLoop e (pre ++ post)).errors))) := by
  have hskip := findLoop_skip_unknown e ld hq pre post
  refine ⟨hskip, fun hfound => ?_⟩
  have hne : pre ++ ld :: post ≠ [] := by cases pre <;> simp
  have herr := find_element_eq_error e (pre ++ ld :: post) name hne (by rw [hskip]; exact hfound)
  rw [hskip] at herr
  rw [herr]
  have hlen : (pre ++ ld :: post).length = pre.length + post.length + 1 := by
    simp [List.length_append]
    omega
  rw [hlen]

/-- Witness for C9: with a failing css entry, an unrecognized `data-testid`
entry and another failing css entry, the loop equals the loop without the
unknown entry, and the raised header still counts 3 locators. -/
theorem find_element_unknown_type_skipped_witness :
    findLoop (fun _ => .timeout)
        ([LocatorDict.mk "css" "#a"] ++ LocatorDict.mk "data-testid" "x" :: [LocatorDict.mk "css" "#b"])
      = findLoop (fun _ => .timeout) ([LocatorDict.mk "css" "#a"] ++ [LocatorDict.mk "css" "#b"])
    ∧ find_element (fun _ => .timeout)
        ([LocatorDict.mk "css" "#a"] ++ LocatorDict.mk "data-testid" "x" :: [LocatorDict.mk "css" "#b"])
        "Element" = .error (.allLocatorsFailed
          (errorSummary "Element" (1 + 1 + 1)
            (findLoop (fun _ => .timeout) ([LocatorDict.mk "css" "#a"] ++ [LocatorDict.mk "css" "#b"])).errors)) := by
  have h := find_element_unknown_type_skipped (fun _ => .timeout) "Element"
    [LocatorDict.mk "css" "#a"] [LocatorDict.mk "css" "#b"]
    (LocatorDict.mk "data-testid" "x") (by decide)
  exact ⟨h.1, h.2 (by decide)⟩

/-- Claim C6: `is_visible` never lets the all-locators-failed exception
escape: whenever an engine is coherent (an element that `wait_for` just saw
visible reports visible from `is_visible()`), the check returns `false` when
no locator resolves (empty list included) and `true` when some locator is the
first to resolve after attempted-but-failing predecessors. -/
theorem is_visible_bool_conversion (eng : Engine) (name : String) (locators : List LocatorDict)
    (hco : ∀ q, eng.waitVisible q = .visible → eng.checkVisible q = true) :
    ((∀ ld ∈ locators, ∀ q, mkQuery ld = some q → eng.waitVisible q ≠ .visible) →
        is_visible eng locators name = false)
    ∧ (∀ pre post ld q, locators = pre ++ ld :: post →
        (∀ x ∈ pre, x.value ≠ "" ∧ ∃ qx, mkQuery x = some qx ∧ eng.waitVisible qx ≠ .visible) →
        ld.value ≠ "" → mkQuery ld = some q → eng.waitVisible q = .visible →
        is_visible eng locators name = true) := by
  constructor
  · intro hall
    cases hloc : locators with
    | nil => rfl
    | cons x l =>
      rw [hloc] at hall
      have h := findLoop_none_of_all_fail eng.waitVisible (x :: l) hall
      have herr := find_element_eq_error eng.waitVisible (x :: l) name (by simp) (by rw [h])
      simp [is_visible, hloc, herr]
  · intro pre post ld q hloc hpre hv hq he
    have hstep : findLoop eng.waitVisible (ld :: post) = ⟨some q, [], [q]⟩ := by
      simp [findLoop, hv, hq, he]
    have hall := findLoop_append_fail eng.waitVisible (ld :: post) pre hpre
    rw [hstep] at hall
    have hne : pre ++ ld :: post ≠ [] := by cases pre <;> simp
    have hok := find_element_eq_ok eng.waitVisible (pre ++ ld :: post) name q hne (by rw [hall])
    rw [hloc]
    simp [is_visible, hok, hco q he]

/-- Witness for C6: a coherent engine under which everything is visible makes
the check true on a single css locator, and one under which nothing is ever
visible makes it false on the same locator list and on the empty list. -/
theorem is_visible_bool_conversion_witness :
    is_visible ⟨fun _ => .visible, fun _ => true⟩ [LocatorDict.mk "css" "#x"] "El" = true
    ∧ is_visible ⟨fun _ => .timeout, fun _ => false⟩ [LocatorDict.mk "css" "#x"] "El" = false
    ∧ is_visible ⟨fun _ => .timeout, fun _ => false⟩ [] "El" = false := by
  refine ⟨?_, ?_, ?_⟩
  · exact (is_visible_bool_conversion ⟨fun _ => .visible, fun _ => true⟩ "El"
      [LocatorDict.mk "css" "#x"] (fun q _ => rfl)).2
      [] [] (LocatorDict.mk "css" "#x") (.selector "#x") rfl
      (fun x hx => absurd hx (List.not_mem_nil x)) (by decide) (by decide) rfl
  · exact (is_visible_bool_conversion ⟨fun _ => .timeout, fun _ => false⟩ "El"
      [LocatorDict.mk "css" "#x"] (fun q h => nomatch h)).1
      (fun ld _ q _ h => nomatch h)
  · exact (is_visible_bool_conversion ⟨fun _ => .timeout, fun _ => false⟩ "El"
      [] (fun q h => nomatch h)).1 (fun ld hld => absurd hld (List.not_mem_nil ld))

/-- Outcome of one driver-creation attempt (`_create_local_driver` /
`_create_remote_driver` in `driver_factory.py`): a ready page handle, or an
exception with its message. -/
inductive Provision where
  | ready (session : Nat)
  | failure (msg : String)
deriving DecidableEq, Repr

/-- The message carried by a failed provisioning outcome. -/
def provisionMsg : Provision → String
  | .ready _ => ""
  | .failure m => m

/-- Observable trace of `DriverFactory.get_driver`: the returned page or the
propagated exception message, the number of creation attempts performed, and
the number of `time.sleep(retry_delay)` calls performed (each inter-attempt
delay is the one fixed `retry_delay` from configuration,
`driver_factory.py` line 507). -/
structure DriverTrace where
  result : Except String Nat
  attempts : Nat
  delays : Nat

/-- The retry loop of `DriverFactory.get_driver` (`driver_factory.py` lines
511-548): `for attempt in range(max_retries + 1)`, sleeping before every
attempt but the first, returning on the first success, re-raising the last
exception when the final attempt fails. `fuel` is the number of loop
iterations left (`max_retries + 1 - attempt`); the `fuel = 0` case is the
unreachable fallback of line 548. -/
def getDriverLoop (create : Nat → Provision) : Nat → Nat → DriverTrace
  | _, 0 => ⟨.error "Driver creation failed", 0, 0⟩
  | attempt, fuel + 1 =>
    let d := if attempt = 0 then 0 else 1
    match create attempt with
    | .ready s => ⟨.ok s, 1, d⟩
    | .failure msg =>
      match fuel with
      | 0 => ⟨.error msg, 1, d⟩
      | fuel' + 1 =>
        let r := getDriverLoop create (attempt + 1) (fuel' + 1)
        ⟨r.result, r.attempts + 1, r.delays + d⟩

/-- Embedding of `DriverFactory.get_driver` (`driver_factory.py` lines
490-548) over an abstract per-attempt provisioning outcome. -/
def get_driver (create : Nat → Provision) (maxRetries : Nat) : DriverTrace :=
  getDriverLoop create 0 (maxRetries + 1)

lemma getDriverLoop_succ_ready (create : Nat → Provision) (a fuel s : Nat)
    (h : create a = .ready s) :
    getDriverLoop create a (fuel + 1) = ⟨.ok s, 1, if a = 0 then 0 else 1⟩ := by
  rw [getDriverLoop, h]

lemma getDriverLoop_one_fail (create : Nat → Provision) (a : Nat) (m : String)
    (h : create a = .failure m) :
    getDriverLoop create a 1 = ⟨.error m, 1, if a = 0 then 0 else 1⟩ := by
  rw [getDriverLoop, h]

lemma getDriverLoop_step_fail (create : Nat → Provision) (a fuel : Nat) (m : String)
    (h : create a = .failure m) :
    getDriverLoop create a (fuel + 2) =
      ⟨(getDriverLoop create (a + 1) (fuel + 1)).result,
       (getDriverLoop create (a + 1) (fuel + 1)).attempts + 1,
       (getDriverLoop create (a + 1) (fuel + 1)).delays + (if a = 0 then 0 else 1)⟩ := by
  rw [show fuel + 2 = (fuel + 1) + 1 from rfl, getDriverLoop, h]

lemma getDriverLoop_attempts_le (create : Nat → Provision) :
    ∀ (fuel attempt : Nat), (getDriverLoop create attempt fuel).attempts ≤ fuel := by
  intro fuel
  induction fuel with
  | zero => intro attempt; simp [getDriverLoop]
  | succ fuel ih =>
    intro attempt
    cases hc : create attempt with
    | ready s =>
      rw [getDriverLoop_succ_ready create attempt fuel s hc]
      dsimp only
      omega
    | failure m =>
      cases fuel with
      | zero =>
        rw [getDriverLoop_one_fail create attempt m hc] <;> (dsimp only; omega)
      | succ fuel' =>
        have h := ih (attempt + 1)
        rw [getDriverLoop_step_fail create attempt fuel' m hc]
        dsimp only
        omega

lemma getDriverLoop_delays_pos (create : Nat → Provision) :
    ∀ (fuel a : Nat), a ≠ 0 →
    (getDriverLoop create a fuel).delays = (getDriverLoop create a fuel).attempts := by
  intro fuel
  induction fuel with
  | zero => intro a _; rfl
  | succ fuel ih =>
    intro a ha
    cases hc : create a with
    | ready s =>
      rw [getDriverLoop_succ_ready create a fuel s hc]
      dsimp only
      rw [if_neg ha]
    | failure m =>
      cases fuel with
      | zero =>
        rw [getDriverLoop_one_fail create a m hc]
        dsimp only
        rw [if_neg ha]
      | succ fuel' =>
        have h := ih (a + 1) (Nat.succ_ne_zero a)
        rw [getDriverLoop_step_fail create a fuel' m hc]
        dsimp only
        rw [if_neg ha, h]

lemma getDriverLoop_delays_zero (create : Nat → Provision) :
    ∀ fuel : Nat, 1 ≤ fuel →
    (getDriverLoop create 0 fuel).delays + 1 = (getDriverLoop create 0 fuel).attempts := by
  intro fuel hfuel
  cases fuel with
  | zero => omega
  | succ fuel =>
    cases hc : create 0 with
    | ready s =>
      rw [getDriverLoop_succ_ready create 0 fuel s hc] <;> simp
    | failure m =>
      cases fuel with
      | zero =>
        rw [getDriverLoop_one_fail create 0 m hc] <;> simp
      | succ fuel' =>
        have h := getDriverLoop_delays_pos create (fuel' + 1) 1 one_ne_zero
        rw [getDriverLoop_step_fail create 0 fuel' m hc]
        dsimp only
        rw [if_pos rfl, h]

lemma getDriverLoop_success (create : Nat → Provision) (s : Nat) :
    ∀ (k a fuel : Nat), k < fuel →
    (∀ j, j < k → ∃ m, create (a + j) = .failure m) →
    create (a + k) = .ready s →
    getDriverLoop create a fuel = ⟨.ok s, k + 1, k + (if a = 0 then 0 else 1)⟩ := by
  intro k
  induction k with
  | zero =>
    intro a fuel hk _ hs
    cases fuel with
    | zero => omega
    | succ fuel =>
      rw [Nat.add_zero] at hs
      rw [getDriverLoop_succ_ready create a fuel s hs] <;> simp
  | succ k ih =>
    intro a fuel hk hfail hs
    obtain ⟨m, hm⟩ := hfail 0 (Nat.succ_pos k)
    rw [Nat.add_zero] at hm
    cases fuel with
    | zero => omega
    | succ fuel =>
      cases fuel with
      | zero => omega
      | succ fuel' =>
        have hfail' : ∀ j, j < k → ∃ m, create (a + 1 + j) = .failure m := by
          intro j hj
          obtain ⟨m', hm'⟩ := hfail (j + 1) (by omega)
          exact ⟨m', by rw [show a + 1 + j = a + (j + 1) from by omega]; exact hm'⟩
        have hs' : create (a + 1 + k) = .ready s := by
          rw [show a + 1 + k = a + (k + 1) from by omega]; exact hs
        have hr := ih (a + 1) (fuel' + 1) (by omega) hfail' hs'
        rw [getDriverLoop_step_fail create a fuel' m hm, hr]
        dsimp only
        rw [if_neg (Nat.succ_ne_zero a)]

lemma getDriverLoop_all_fail (create : Nat → Provision) :
    ∀ (fuel a : Nat), 1 ≤ fuel →
    (∀ j, j < fuel → ∃ m, create (a + j) = .failure m) →
    getDriverLoop create a fuel =
      ⟨.error (provisionMsg (create (a + fuel - 1))), fuel,
        fuel - 1 + (if a = 0 then 0 else 1)⟩ := by
  intro fuel
  induction fuel with
  | zero => intro a h; omega
  | succ fuel ih =>
    intro a _ hfail
    obtain ⟨m, hm⟩ := hfail 0 (Nat.succ_pos fuel)
    rw [Nat.add_zero] at hm
    cases fuel with
    | zero =>
      rw [getDriverLoop_one_fail create a m hm]
      have harg1 : a + 1 - 1 = a := by omega
      rw [harg1, hm] <;> simp [provisionMsg]
    | succ fuel' =>
      have hfail' : ∀ j, j < fuel' + 1 → ∃ m, create (a + 1 + j) = .failure m := by
        intro j hj
        obtain ⟨m', hm'⟩ := hfail (j + 1) (by omega)
        exact ⟨m', by rw [show a + 1 + j = a + (j + 1) from by omega]; exact hm'⟩
      have hr := ih (a + 1) (by omega) hfail'
      rw [getDriverLoop_step_fail create a fuel' m hm, hr]
      dsimp only
      rw [if_neg (Nat.succ_ne_zero a)]
      have harg : a + 1 + (fuel' + 1) - 1 = a + (fuel' + 1 + 1) - 1 := by omega
      rw [harg]
      simp only [DriverTrace.mk.injEq]
      refine ⟨trivial, trivial, ?_⟩
      by_cases ha : a = 0
      · rw [if_pos ha] <;> omega
      · rw [if_neg ha] <;> omega

/-- Claim C3: for every `maxRetries = N` and provisioning outcome sequence,
`get_driver` performs at most `N + 1` creation attempts with exactly one
fixed inter-attempt delay between consecutive attempts; if attempt `k`
(0-based, after `k` failures) succeeds it returns the ready session with
`k + 1` attempts and `k` delays, and if all `N + 1` attempts fail it raises
the final underlying failure after `N + 1` attempts and `N` delays. -/
theorem get_driver_retry_policy (create : Nat → Provision) (N : Nat) :
    ((get_driver create N).attempts ≤ N + 1
      ∧ (get_driver create N).delays + 1 = (get_driver create N).attempts)
    ∧ (∀ k s, k ≤ N → (∀ j, j < k → ∃ m, create j = .failure m) → create k = .ready s →
        get_driver create N = ⟨.ok s, k + 1, k⟩)
    ∧ ((∀ j, j ≤ N → ∃ m, create j = .failure m) →
        get_driver create N = ⟨.error (provisionMsg (create N)), N + 1, N⟩) := by
  refine ⟨⟨getDriverLoop_attempts_le create (N + 1) 0,
      getDriverLoop_delays_zero create (N + 1) (by omega)⟩, ?_, ?_⟩
  · intro k s hk hfail hs
    have h := getDriverLoop_success create s k 0 (N + 1) (by omega)
      (by intro j hj; rw [Nat.zero_add]; exact hfail j hj)
      (by rw [Nat.zero_add]; exact hs)
    rw [get_driver, h]
    simp
  · intro hfail
    have h := getDriverLoop_all_fail create (N + 1) 0 (by omega)
      (by intro j hj; rw [Nat.zero_add]; exact hfail j (by omega))
    rw [get_driver, h, if_pos rfl]
    have h1 : 0 + (N + 1) - 1 = N := by omega
    have h2 : N + 1 - 1 + 0 = N := by omega
    rw [h1, h2]

/-- Witness for C3: a provisioning function failing twice then ready on the
third attempt, with `maxRetries = 3`: three attempts, two delays, success. -/
theorem get_driver_retry_policy_witness :
    get_driver (fun k => if k < 2 then Provision.failure "net down" else Provision.ready 7) 3
      = ⟨.ok 7, 3, 2⟩ := by
  have h := (get_driver_retry_policy
    (fun k => if k < 2 then Provision.failure "net down" else Provision.ready 7) 3).2.1
    2 7 (by omega)
    (fun j hj => ⟨"net down", by simp [hj]⟩)
    (by simp)
  exact h

/-- Python truthiness of an optional string configuration value: `None` and
the empty string are falsy (used by `remote_url or ...` and
`if ... not self.remote_url` in `driver_factory.py`). -/
def truthy : Option String → Bool
  | none => false
  | some s => !(s = "")

/-- Python's `a or b` on optional string values. -/
def pyOr (a b : Option String) : Option String :=
  if truthy a then a else b

/-- The slice of a browser profile dictionary read by the remote-settings
resolution of `DriverFactory.__init__`: `profile.get('remote', False)` and
`profile.get('remote_url')` (`driver_factory.py` lines 162-163). -/
structure BrowserProfile where
  remote : Bool
  remoteUrl : Option String

/-- The slice of the framework configuration read by the fallback of
`DriverFactory.__init__` line 168: the `remote_url` and `grid_url` keys. -/
structure FrameworkConfig where
  remoteUrl : Option String
  gridUrl : Option String

/-- Embedding of the remote-mode resolution of `DriverFactory.__init__`
(`driver_factory.py` lines 155-173): if the `remote` parameter is supplied,
`self.remote = remote` and `self.remote_url = remote_url` (the parameter
only); otherwise the profile's `remote` flag and `remote_url or
profile.remote_url`. Then, if remote is on and the URL is falsy, fall back to
the configuration's `remote_url or grid_url`. -/
def resolveRemoteSettings (profile : BrowserProfile) (cfg : FrameworkConfig)
    (remoteParam : Option Bool) (remoteUrlParam : Option String) : Bool × Option String :=
  let ru : Bool × Option String :=
    match remoteParam with
    | some b => (b, remoteUrlParam)
    | none => (profile.remote, pyOr remoteUrlParam profile.remoteUrl)
  if ru.1 && !(truthy ru.2) then (ru.1, pyOr cfg.remoteUrl cfg.gridUrl)
  else ru

/-- Claim C10: when the `remote` override parameter is supplied, the resolved
remote URL is the `remote_url` parameter, falling back to the configuration's
`remote_url` or `grid_url` when the parameter is absent (and remote mode is
on) — and never the profile's own `remote_url`: the result is the same for
every profile. -/
theorem resolveRemoteSettings_override_ignores_profile (p : BrowserProfile)
    (cfg : FrameworkConfig) (b : Bool) (urlParam : Option String) :
    resolveRemoteSettings p cfg (some b) urlParam =
      (b, if b && !(truthy urlParam)
          then pyOr cfg.remoteUrl cfg.gridUrl else urlParam)
    ∧ ∀ p' : BrowserProfile,
        resolveRemoteSettings p cfg (some b) urlParam
          = resolveRemoteSettings p' cfg (some b) urlParam := by
  refine ⟨?_, fun p' => rfl⟩
  show (if b && !(truthy urlParam) then (b, pyOr cfg.remoteUrl cfg.gridUrl)
        else (b, urlParam)) = _
  split <;> rfl

/-- The `ValueError` message of `_create_remote_driver`
(`driver_factory.py` lines 378-381). -/
def remoteUnconfiguredMsg : String :=
  "Remote execution requested but remote_url not configured. Set remote_url in browser profile or config."

/-- Embedding of the URL guard of `DriverFactory._create_remote_driver`
(`driver_factory.py` lines 376-381): a falsy `self.remote_url` raises a
`ValueError` inside the method's `try` block; otherwise the remote connection
proceeds (abstracted as `connect`). -/
def create_remote_driver (remoteUrl : Option String) (connect : String → Provision) :
    Provision :=
  if truthy remoteUrl = false then .failure remoteUnconfiguredMsg
  else connect (remoteUrl.getD "")

/-- `get_driver` in remote mode (`driver_factory.py` lines 521-522): every
attempt of the retry loop calls `_create_remote_driver` with the same
resolved URL. -/
def get_driver_remote (remoteUrl : Option String) (connect : String → Provision)
    (maxRetries : Nat) : DriverTrace :=
  get_driver (fun _ => create_remote_driver remoteUrl connect) maxRetries

/-- Claim C4, counterexample to the claim as stated: remote mode with no
resolvable URL and `maxRetries = 2` performs 3 creation attempts (the
configuration error is caught and retried by the loop), not a single
immediate failure. -/
theorem remote_unconfigured_retried_counterexample :
    (get_driver_remote none (fun _ => .ready 0) 2).attempts = 3
    ∧ (get_driver_remote none (fun _ => .ready 0) 2).result = .error remoteUnconfiguredMsg
    ∧ ¬ (get_driver_remote none (fun _ => .ready 0) 2).attempts = 1 :=
  ⟨rfl, rfl, by decide⟩

/-- Claim C4 (amended): when remote mode is requested and no remote endpoint
URL is resolvable (falsy URL), every driver-creation attempt fails with the
`ValueError` configuration message; the error is not fatal to the retry loop,
so `maxRetries + 1` attempts and `maxRetries` delays are performed before the
configuration error propagates. -/
theorem get_driver_remote_unconfigured (url : Option String) (connect : String → Provision)
    (N : Nat) (h : truthy url = false) :
    get_driver_remote url connect N = ⟨.error remoteUnconfiguredMsg, N + 1, N⟩ := by
  have hc : (fun _ : Nat => create_remote_driver url connect)
      = fun _ => Provision.failure remoteUnconfiguredMsg := by
    funext j
    simp [create_remote_driver, h]
  rw [get_driver_remote, get_driver, hc]
  have hall := getDriverLoop_all_fail (fun _ => Provision.failure remoteUnconfiguredMsg)
    (N + 1) 0 (by omega) (fun j _ => ⟨remoteUnconfiguredMsg, rfl⟩)
  rw [hall, if_pos rfl]
  simp only [provisionMsg, DriverTrace.mk.injEq]
  refine ⟨trivial, trivial, by omega⟩

/-- Witness for C4 (amended): no URL anywhere, `maxRetries = 1`: two attempts,
one delay, then the configuration error propagates. -/
theorem get_driver_remote_unconfigured_witness :
    get_driver_remote none (fun _ => Provision.ready 5) 1
      = ⟨.error remoteUnconfiguredMsg, 2, 1⟩ :=
  get_driver_remote_unconfigured none (fun _ => Provision.ready 5) 1 rfl

/-- A YAML scalar value as found in a browser profile mapping. -/
inductive YVal where
  | str (s : String)
  | nat (n : Nat)
  | bool (b : Bool)
deriving DecidableEq, Repr

/-- A Python dict with string keys, as an insertion-ordered association list
with unique keys (Python dict semantics). -/
abbrev PyDict := List (String × YVal)

/-- Lookup of a key in a dict. -/
def dictGet : PyDict → String → Option YVal
  | [], _ => none
  | kv :: rest, k => if kv.1 = k then some kv.2 else dictGet rest k

/-- Setting one key in a dict, Python-style: an existing key keeps its
position and gets the new value, a new key is appended. -/
def dictSet : PyDict → String → YVal → PyDict
  | [], k, v => [(k, v)]
  | kv :: rest, k, v => if kv.1 = k then (k, v) :: rest else kv :: dictSet rest k v

/-- Python's `base.update(upd)`: set every key of `upd` into `base`, in
order. -/
def dictUpdate (base upd : PyDict) : PyDict :=
  upd.foldl (fun acc kv => dictSet acc kv.1 kv.2) base

/-- The slice of the parsed `browsers.yaml` read by
`ConfigLoader.get_browser_matrix` (`config_loader.py` lines 231-301): the
optional explicit `matrix` list and the optional legacy `browsers`
name-to-profile mapping (a Python dict, so insertion-ordered). -/
structure BrowsersConfig where
  matrix : Option (List PyDict)
  browsers : Option (List (String × PyDict))

/-- Embedding of `ConfigLoader._get_legacy_browser_matrix`'s conversion loop
(`config_loader.py` lines 292-296): `profile_entry = {"name": profile_name}`
then `profile_entry.update(profile_config)`, one entry per mapping item, in
mapping iteration order. -/
def legacyBrowserMatrix (m : List (String × PyDict)) : List PyDict :=
  m.map (fun kp => dictUpdate [("name", YVal.str kp.1)] kp.2)

/-- Embedding of `ConfigLoader.get_browser_matrix` with its legacy fallback
(`config_loader.py` lines 231-301): prefer the explicit `matrix` list when
the key is present (raising if it is empty), otherwise synthesize the matrix
from the legacy `browsers` mapping (raising if it is missing or empty). -/
def get_browser_matrix (cfg : BrowsersConfig) : Except String (List PyDict) :=
  match cfg.matrix with
  | some mat =>
    if mat.isEmpty then .error "Browser matrix must be a non-empty list"
    else .ok mat
  | none =>
    match cfg.browsers with
    | none => .error "Invalid browsers configuration: missing both matrix and browsers"
    | some m =>
      if m.isEmpty then .error "Invalid legacy browsers configuration"
      else .ok (legacyBrowserMatrix m)

lemma dictGet_dictSet_ne (k' : String) :
    ∀ (d : PyDict) (k : String) (v : YVal), k' ≠ k →
    dictGet (dictSet d k v) k' = dictGet d k' := by
  intro d
  induction d with
  | nil =>
    intro k v h
    simp [dictSet, dictGet, Ne.symm h]
  | cons kv rest ih =>
    intro k v h
    by_cases hk : kv.1 = k
    · simp [dictSet, dictGet, hk, h, Ne.symm h]
    · by_cases hk' : kv.1 = k'
      · simp [dictSet, dictGet, hk, hk', h]
      · simp [dictSet, dictGet, hk, hk', ih k v h]

lemma dictGet_dictSet_self :
    ∀ (d : PyDict) (k : String) (v : YVal), dictGet (dictSet d k v) k = some v := by
  intro d
  induction d with
  | nil => intro k v; simp [dictSet, dictGet]
  | cons kv rest ih =>
    intro k v
    by_cases hk : kv.1 = k
    · simp [dictSet, dictGet, hk]
    · simp [dictSet, dictGet, hk, ih k v]

lemma dictGet_dictUpdate_of_absent (k : String) :
    ∀ (upd base : PyDict), dictGet upd k = none →
    dictGet (dictUpdate base upd) k = dictGet base k := by
  intro upd
  induction upd with
  | nil => intro base _; rfl
  | cons kv rest ih =>
    intro base h
    have hne : kv.1 ≠ k := by
      intro he
      simp [dictGet, he] at h
    have hrest : dictGet rest k = none := by
      simpa [dictGet, hne] using h
    show dictGet (dictUpdate (dictSet base kv.1 kv.2) rest) k = dictGet base k
    rw [ih (dictSet base kv.1 kv.2) hrest,
      dictGet_dictSet_ne k (base) kv.1 kv.2 (Ne.symm hne)]

lemma dictGet_eq_none_of_not_mem (k : String) :
    ∀ d : PyDict, k ∉ d.map Prod.fst → dictGet d k = none := by
  intro d
  induction d with
  | nil => intro _; rfl
  | cons kv rest ih =>
    intro h
    simp only [List.map_cons, List.mem_cons] at h
    push_neg at h
    simp [dictGet, Ne.symm h.1, ih h.2]

lemma dictGet_dictUpdate_of_mem (k : String) (v : YVal) :
    ∀ (upd base : PyDict), (upd.map Prod.fst).Nodup → dictGet upd k = some v →
    dictGet (dictUpdate base upd) k = some v := by
  intro upd
  induction upd with
  | nil => intro base _ h; simp [dictGet] at h
  | cons kv rest ih =>
    intro base hnd h
    simp only [List.map_cons, List.nodup_cons] at hnd
    by_cases hk : kv.1 = k
    · have hv : kv.2 = v := by
        simpa [dictGet, hk] using h
      have hrest : dictGet rest k = none :=
        dictGet_eq_none_of_not_mem k rest (by rw [← hk]; exact hnd.1)
      show dictGet (dictUpdate (dictSet base kv.1 kv.2) rest) k = some v
      rw [dictGet_dictUpdate_of_absent k rest _ hrest, hk,
        dictGet_dictSet_self base k kv.2, hv]
    · have hrest : dictGet rest k = some v := by
        simpa [dictGet, hk] using h
      exact ih (dictSet base kv.1 kv.2) hnd.2 hrest

/-- Claim C7: with no explicit `matrix` list and a legacy name-to-profile
mapping, `get_browser_matrix` returns one synthesized profile per mapping
entry, in mapping iteration order, each formed by injecting the mapping key
as the `name` field and merging the mapped profile's own fields in: for
profiles without their own `name` key the result is named by the mapping key,
and every field of the mapped profile keeps its value in the result. -/
theorem get_browser_matrix_legacy_synthesis (cfg : BrowsersConfig)
    (m : List (String × PyDict))
    (hmat : cfg.matrix = none) (hbr : cfg.browsers = some m) (hne : m ≠ [])
    (hnd : ∀ kp ∈ m, (kp.2.map Prod.fst).Nodup)
    (hname : ∀ kp ∈ m, dictGet kp.2 "name" = none) :
    get_browser_matrix cfg = .ok (legacyBrowserMatrix m)
    ∧ (legacyBrowserMatrix m).length = m.length
    ∧ (∀ kp ∈ m, dictGet (dictUpdate [("name", YVal.str kp.1)] kp.2) "name"
        = some (YVal.str kp.1))
    ∧ (∀ kp ∈ m, ∀ k v, dictGet kp.2 k = some v →
        dictGet (dictUpdate [("name", YVal.str kp.1)] kp.2) k = some v) := by
  refine ⟨?_, by simp [legacyBrowserMatrix], ?_, ?_⟩
  · rw [get_browser_matrix, hmat, hbr]
    dsimp only
    rw [if_neg (by simpa using hne)]
  · intro kp hkp
    rw [dictGet_dictUpdate_of_absent "name" kp.2 _ (hname kp hkp)]
    simp [dictGet]
  · intro kp hkp k v hv
    exact dictGet_dictUpdate_of_mem k v kp.2 _ (hnd kp hkp) hv

/-- Witness for C7: a two-profile legacy mapping with no explicit matrix is
converted to a two-entry matrix named by the mapping keys, keeping each
profile's own fields. -/
theorem get_browser_matrix_legacy_synthesis_witness :
    get_browser_matrix ⟨none, some [("p1", [("headless", YVal.bool true)]),
        ("p2", [("browserName", YVal.str "firefox")])]⟩
      = .ok (legacyBrowserMatrix [("p1", [("headless", YVal.bool true)]),
        ("p2", [("browserName", YVal.str "firefox")])])
    ∧ legacyBrowserMatrix [("p1", [("headless", YVal.bool true)]),
        ("p2", [("browserName", YVal.str "firefox")])]
      = [[("name", YVal.str "p1"), ("headless", YVal.bool true)],
         [("name", YVal.str "p2"), ("browserName", YVal.str "firefox")]] := by
  have h := get_browser_matrix_legacy_synthesis
    ⟨none, some [("p1", [("headless", YVal.bool true)]),
        ("p2", [("browserName", YVal.str "firefox")])]⟩
    [("p1", [("headless", YVal.bool true)]), ("p2", [("browserName", YVal.str "firefox")])]
    rfl rfl (by decide) (by decide) (by decide)
  exact ⟨h.1, by decide⟩

/-- The Allure backend as seen by `AllureReporter`
(`allure_reporter.py`): each primitive either succeeds (`none`) or raises an
exception with a message (`some msg`); `fileExists` models
`Path(path).exists()` and `readFile` models opening and reading the
screenshot file. -/
structure ReportBackend where
  stepRun : String → Option String
  attachRun : String → String → Option String
  fileExists : String → Bool
  readFile : String → Option String

/-- Python's `except Exception: pass` around a whole operation body: whatever
the body did, the operation returns normally. -/
def swallow : Except String Unit → Except String Unit
  | _ => .ok ()

/-- Embedding of `AllureReporter.log_step` (`allure_reporter.py` lines
34-42): `with self.allure.step(message): pass` — there is NO try/except here,
a backend failure propagates to the caller. -/
def log_step (b : ReportBackend) (message : String) : Except String Unit :=
  match b.stepRun message with
  | some e => .error e
  | none => .ok ()

/-- The body of `AllureReporter.attach_screenshot` (`allure_reporter.py`
lines 52-62): return early when the file does not exist, otherwise read it
and attach the bytes. -/
def attach_screenshot_body (b : ReportBackend) (name path : String) : Except String Unit :=
  if b.fileExists path = false then .ok ()
  else
    match b.readFile path with
    | none => match b.attachRun name path with
      | some e => .error e
      | none => .ok ()
    | some e => .error e

/-- Embedding of `AllureReporter.attach_screenshot` (`allure_reporter.py`
lines 44-66): the body inside `try ... except Exception: pass`. -/
def attach_screenshot (b : ReportBackend) (name path : String) : Except String Unit :=
  swallow (attach_screenshot_body b name path)

/-- The body of `AllureReporter.attach_text` (`allure_reporter.py` lines
76-81): attach the text content. -/
def attach_text_body (b : ReportBackend) (name content : String) : Except String Unit :=
  match b.attachRun name content with
  | some e => .error e
  | none => .ok ()

/-- Embedding of `AllureReporter.attach_text` (`allure_reporter.py` lines
68-83): the body inside `try ... except Exception: pass`. -/
def attach_text (b : ReportBackend) (name content : String) : Except String Unit :=
  swallow (attach_text_body b name content)

/-- The body of `AllureReporter.attach_exception` (`allure_reporter.py`
lines 93-99): format the traceback and attach it as text. -/
def attach_exception_body (b : ReportBackend) (name excText : String) : Except String Unit :=
  match b.attachRun name excText with
  | some e => .error e
  | none => .ok ()

/-- Embedding of `AllureReporter.attach_exception` (`allure_reporter.py`
lines 85-101): the body inside `try ... except Exception: pass`. -/
def attach_exception (b : ReportBackend) (name excText : String) : Except String Unit :=
  swallow (attach_exception_body b name excText)

/-- Embedding of `ReportingManager.log_info` (`manager.py` lines 114-128):
`log_step` on the active reporter, wrapped in `try ... except Exception` that
reduces any failure to a debug log. -/
def log_info (initialized : Bool) (b : ReportBackend) (message : String) :
    Except String Unit :=
  swallow (if initialized then log_step b message else .ok ())

/-- Claim C8, counterexample to the claim as stated: `log_step` has no
try/except of its own, so a backend whose step primitive raises makes
`log_step` propagate the exception to its caller instead of returning
normally. -/
theorem log_step_propagates_counterexample :
    log_step ⟨fun _ => some "allure backend down", fun _ _ => none,
        fun _ => true, fun _ => none⟩ "Click login"
      = .error "allure backend down"
    ∧ ¬ (log_step ⟨fun _ => some "allure backend down", fun _ _ => none,
        fun _ => true, fun _ => none⟩ "Click login" = .ok ()) :=
  ⟨rfl, fun h => nomatch h⟩

/-- Claim C8 (amended): `attach_screenshot`, `attach_text` and
`attach_exception` swallow their own internal errors and return normally for
every input and every backend failure, and `ReportingManager.log_info`
swallows step failures at the facade boundary; `log_step` itself, however,
returns normally only when the backend step primitive does not fail — a
failing backend makes it propagate. -/
theorem reporting_best_effort (b : ReportBackend) (name path content message : String) :
    attach_screenshot b name path = .ok ()
    ∧ attach_text b name content = .ok ()
    ∧ attach_exception b name content = .ok ()
    ∧ (∀ initialized : Bool, log_info initialized b message = .ok ())
    ∧ (b.stepRun message = none → log_step b message = .ok ()) := by
  refine ⟨rfl, rfl, rfl, fun _ => rfl, fun h => ?_⟩
  rw [log_step, h]

/-- Witness for C8 (amended): a backend whose every primitive raises still
lets the three attach operations and `log_info` return normally, and a
backend whose step primitive succeeds lets `log_step` return normally. -/
theorem reporting_best_effort_witness :
    attach_screenshot ⟨fun _ => some "down", fun _ _ => some "down",
        fun _ => true, fun _ => some "io error"⟩ "shot" "a.png" = .ok ()
    ∧ log_info true ⟨fun _ => some "down", fun _ _ => some "down",
        fun _ => true, fun _ => some "io error"⟩ "step" = .ok ()
    ∧ log_step ⟨fun _ => none, fun _ _ => none, fun _ => true, fun _ => none⟩ "step"
      = .ok () := by
  refine ⟨?_, ?_, ?_⟩
  · exact (reporting_best_effort ⟨fun _ => some "down", fun _ _ => some "down",
      fun _ => true, fun _ => some "io error"⟩ "shot" "a.png" "c" "step").1
  · exact (reporting_best_effort ⟨fun _ => some "down", fun _ _ => some "down",
      fun _ => true, fun _ => some "io error"⟩ "n" "p" "c" "step").2.2.2.1 true
  · exact (reporting_best_effort ⟨fun _ => none, fun _ _ => none,
      fun _ => true, fun _ => none⟩ "n" "p" "c" "step").2.2.2.2 rfl
